import Mathlib

/-!
Verification of the incremental multi-source content-synchronization engine of
the fed-signal-ai repository: a shallow embedding of
`src/scrapers/base_scraper.py` (`BaseScraper`),
`src/scrapers/scraper_manager.py` (`ScraperManager`) and
`src/scrapers/util.py` (`FileLocker`), together with theorems settling the
frozen claims about them.

Modelling conventions:
* timestamps are `Nat`; the relational store is an explicit `DB` value threaded
  through the operations; a SQLAlchemy session that raises is modelled by a
  Boolean failure-injection oracle in `ScrapeEnv` (the source wraps every
  session in `try/except`, so a raising session is observationally a flag);
* JSON blobs that the code reads back field-by-field (`extra_metadata`) are
  modelled as association lists `List (String × String)` with Python-dict
  semantics (later insertion overwrites); opaque JSON that is only ever stored
  (`last_run_metadata`) is modelled as a `String`;
* fetching (`scrape_new_content`) is modelled by its outcome, an
  `Except String (List ScrapedContent)`: the source either returns a candidate
  list or raises with a message.
-/

namespace FedSignal

/-- `ScrapedContent` dataclass, src/scrapers/base_scraper.py lines 13-23. -/
structure ScrapedContent where
  id : String
  title : String
  content : String
  url : String
  published_date : Nat
  source : String
  metadata : List (String × String)
  content_hash : String
deriving Repr, DecidableEq

/-- One row of the `scraped_data` table (`ScrapedData`,
src/database/models.py lines 140-166); only the columns the scraper logic
reads or writes are modelled.  `extra_metadata` is the parsed view of the
JSON text column. -/
structure ScrapedData where
  rec_id : String
  external_id : Option String
  source : String
  url : String
  target_content : String
  raw_content : String
  extra_metadata : List (String × String)
deriving Repr, DecidableEq

/-- One row of the `scraper_states` table (`ScraperState`,
src/database/models.py lines 125-136). -/
structure ScraperState where
  scraper_name : String
  last_check_time : Option Nat
  last_run_metadata : Option String
  total_runs : Nat
  successful_runs : Nat
deriving Repr, DecidableEq

/-- The relational store: the two tables the synchronization engine touches. -/
structure DB where
  scraper_states : List ScraperState
  scraped_data : List ScrapedData
deriving Repr, DecidableEq

/-- `d.get(k, dflt)` on a parsed JSON object. -/
def dictGet (d : List (String × String)) (k dflt : String) : String :=
  match d.find? (fun p => p.1 == k) with
  | some p => p.2
  | none => dflt

/-- Whether key `k` is present. -/
def dictHasKey (d : List (String × String)) (k : String) : Bool :=
  d.any (fun p => p.1 == k)

/-- Pointwise overwrite of the entry with key `k` (helper of `dictInsert`). -/
def dictSetFn (k v : String) (p : String × String) : String × String :=
  if p.1 == k then (k, v) else p

/-- `d[k] = v` on a Python dict: overwrite in place if the key exists,
append otherwise. -/
def dictInsert (d : List (String × String)) (k v : String) :
    List (String × String) :=
  if dictHasKey d k then d.map (dictSetFn k v) else d ++ [(k, v)]

/-- Python dict-literal merge: the entries of `upd` are written over
`base` left to right (`\x7b **base, **upd \x7d` semantics). -/
def dictMerge (base upd : List (String × String)) : List (String × String) :=
  upd.foldl (fun acc p => dictInsert acc p.1 p.2) base

/-- The row of `scraped_data` matching the identity `(source, external_id)`:
the `session.query(ScrapedData).filter_by(source=..., external_id=...).first()`
lookup of `_is_content_new`, src/scrapers/base_scraper.py lines 89-92. -/
def findRecord (db : DB) (source content_id : String) : Option ScrapedData :=
  db.scraped_data.find?
    (fun r => r.source == source && r.external_id == some content_id)

/-- The row of `scraper_states` for a scraper name
(`filter_by(scraper_name=...).first()`). -/
def findState (db : DB) (name : String) : Option ScraperState :=
  db.scraper_states.find? (fun s => s.scraper_name == name)

/-- The persisted checkpoint time of a source (None when the row is absent or
its `last_check_time` column is NULL). -/
def lastCheckOf (db : DB) (name : String) : Option Nat :=
  match findState db name with
  | some s => s.last_check_time
  | none => none

/-- The persisted `(total_runs, successful_runs)` counters of a source. -/
def runCounters (db : DB) (name : String) : Option (Nat × Nat) :=
  (findState db name).map (fun s => (s.total_runs, s.successful_runs))

/-- The `content_hash` stored inside the `extra_metadata` JSON of the record
for identity `(source, content_id)`, the way `_is_content_new` reads it back
(src/scrapers/base_scraper.py lines 97-99). -/
def storedHash (db : DB) (source content_id : String) : Option String :=
  (findRecord db source content_id).map
    (fun r => dictGet r.extra_metadata "content_hash" "")

/-- Pointwise overwrite of the record matching `(source, external_id)`
(helper of `save_scraped_data`). -/
def updRecordFn (source url target_content raw_content : String)
    (metadata : List (String × String)) (external_id : String)
    (r : ScrapedData) : ScrapedData :=
  if r.source == source && r.external_id == some external_id then
    { r with url := url, target_content := target_content,
             raw_content := raw_content, extra_metadata := metadata }
  else r

/-- Modelled from the spec: `DatabaseManager.save_scraped_data` is invoked by
`BaseScraper._save_content` (src/scrapers/base_scraper.py line 117) and by the
fed-scraper tools, but no definition of it exists under src/ (the
`DatabaseManager` in src/database/database.py has no such method).  Per the
spec, §3, the content store's identity key is `(source, external_id)` and two
candidates with the same identity never produce two ContentRecords, so the
write upserts the row for that identity (overwriting its content columns and
metadata) and returns the row id. -/
def save_scraped_data (db : DB) (source url target_content raw_content : String)
    (metadata : List (String × String)) (external_id : String) : String × DB :=
  match findRecord db source external_id with
  | some existing =>
      (existing.rec_id,
       { db with scraped_data := (db.scraped_data.map
           (updRecordFn source url target_content raw_content metadata
             external_id)) })
  | none =>
      let fresh := "rec-" ++ source ++ "-" ++ external_id
      (fresh,
       { db with scraped_data := db.scraped_data ++
           [{ rec_id := fresh, external_id := some external_id, source := source,
              url := url, target_content := target_content,
              raw_content := raw_content, extra_metadata := metadata }] })

/-- The outcome environment of one `run_scraping` call: what the source fetch
does, and which store sessions raise.  The source wraps each session in
`try/except`, so a raising session is fully described by a Boolean
(per content id where the failure is per-item). -/
structure ScrapeEnv where
  fetch : Except String (List ScrapedContent)
  freshness_check_fails : String → Bool
  save_fails : String → Bool
  checkpoint_save_fails : Bool

/-- `BaseScraper._is_content_new`, src/scrapers/base_scraper.py lines 83-105:
look up the record for `(source, content_id)`; new when absent, changed when
the stored `content_hash` metadata differs; if the session raises, the item is
assumed new (`return True` in the `except` arm, line 105). -/
def _is_content_new (env : ScrapeEnv) (db : DB)
    (name content_id content_hash : String) : Bool :=
  if env.freshness_check_fails content_id then true
  else
    match findRecord db name content_id with
    | none => true
    | some existing =>
        content_hash != dictGet existing.extra_metadata "content_hash" ""

/-- `BaseScraper._save_content`, src/scrapers/base_scraper.py lines 107-127:
build the metadata dict `\x7b content_hash, published_date, scraped_at,
**content.metadata \x7d` (later keys overwrite) and hand it to
`save_scraped_data`; any exception is caught and `None` returned, leaving the
store untouched (the session rolls back).  The wall-clock-only `scraped_at`
entry is not modelled (nothing in the engine reads it back). -/
def _save_content (env : ScrapeEnv) (db : DB) (name : String)
    (c : ScrapedContent) : Option String × DB :=
  if env.save_fails c.id then (none, db)
  else
    let metadata := dictMerge
      [("content_hash", c.content_hash),
       ("published_date", toString c.published_date)] c.metadata
    let saved := save_scraped_data db name c.url c.title c.content metadata c.id
    (some saved.1, saved.2)

/-- The `last_run_metadata` JSON written on a successful checkpoint save. -/
def runMetaJson (t : Nat) : String :=
  "successful:true,timestamp:" ++ toString t

/-- Pointwise overwrite of the state row for `name`
(helper of `_save_check_time`). -/
def updStateFn (name : String) (check_time : Nat) (s : ScraperState) :
    ScraperState :=
  if s.scraper_name == name then
    { s with last_check_time := some check_time,
             last_run_metadata := some (runMetaJson check_time) }
  else s

/-- `BaseScraper._save_check_time`, src/scrapers/base_scraper.py lines 50-77:
upsert the `scraper_states` row for this source, setting `last_check_time` and
`last_run_metadata`; the `total_runs` / `successful_runs` columns are not
touched (a fresh row gets their column defaults, 0).  Any exception is caught
and logged, leaving the store untouched. -/
def _save_check_time (env : ScrapeEnv) (db : DB) (name : String)
    (check_time : Nat) : DB :=
  if env.checkpoint_save_fails then db
  else
    match findState db name with
    | some _ =>
        { db with scraper_states :=
            db.scraper_states.map (updStateFn name check_time) }
    | none =>
        { db with scraper_states := db.scraper_states ++
            [{ scraper_name := name, last_check_time := some check_time,
               last_run_metadata := some (runMetaJson check_time),
               total_runs := 0, successful_runs := 0 }] }

/-- The result dictionary of one `run_scraping` call; fields that a given
return path leaves out of the Python dict are `none`. -/
structure RunResult where
  success : Bool
  scraper_name : String
  new_content_count : Option Nat := none
  total_content_found : Option Nat := none
  content_ids : Option (List String) := none
  message : Option String := none
  error : Option String := none
  last_check : Option Nat := none
deriving Repr, DecidableEq

/-- The `for content in new_content` filtering loop of `run_scraping`,
src/scrapers/base_scraper.py lines 159-168: save each candidate that is forced
or classified new, collecting the returned ids (a `None` from `_save_content`
is skipped). -/
def processContents (env : ScrapeEnv) (name : String) (force_update : Bool) :
    DB → List ScrapedContent → List String × DB
  | db, [] => ([], db)
  | db, c :: rest =>
      if force_update || _is_content_new env db name c.id c.content_hash then
        match _save_content env db name c with
        | (some rid, db1) =>
            let tail := processContents env name force_update db1 rest
            (rid :: tail.1, tail.2)
        | (none, db1) => processContents env name force_update db1 rest
      else
        processContents env name force_update db rest

/-- `BaseScraper.run_scraping`, src/scrapers/base_scraper.py lines 134-200:
record `start_time`, fetch; a raising fetch is caught and returned as a failed
result with the checkpoint untouched; an empty un-forced fetch returns early
without touching the checkpoint; otherwise filter-and-save the candidates and
advance the checkpoint to `start_time`.  `last_check_time` is the in-memory
`self.last_check_time` at entry; execution-time fields are not modelled. -/
def run_scraping (env : ScrapeEnv) (name : String) (last_check_time : Option Nat)
    (start_time : Nat) (force_update : Bool) (db : DB) : RunResult × DB :=
  match env.fetch with
  | .error e =>
      ({ success := false, scraper_name := name, error := some e,
         last_check := last_check_time }, db)
  | .ok new_content =>
      if new_content.isEmpty && !force_update then
        ({ success := true, scraper_name := name, new_content_count := some 0,
           content_ids := some [],
           message := some "No new content since last check",
           last_check := last_check_time }, db)
      else
        let proc := processContents env name force_update db new_content
        let db2 := _save_check_time env proc.2 name start_time
        ({ success := true, scraper_name := name,
           new_content_count := some proc.1.length,
           total_content_found := some new_content.length,
           content_ids := some proc.1,
           message := some ("Found " ++ toString new_content.length ++
             " items, saved " ++ toString proc.1.length ++ " new"),
           last_check := some start_time }, db2)

/-- The per-source entry the manager synthesizes when a scraper's `run_scraping`
call itself raises (src/scrapers/scraper_manager.py lines 100-105 and 129-134). -/
def crashResult (name err : String) : RunResult :=
  { success := false, scraper_name := name,
    error := some ("Execution failed: " ++ err) }

/-- `ScraperManager._run_scrapers_sequential`, src/scrapers/scraper_manager.py
lines 109-136: run each registered scraper in registry order; a raising run is
caught and replaced by a failed entry, a returned result is recorded as-is.
A scraper's behaviour is its run outcome, result or raised message. -/
def _run_scrapers_sequential (registry : List (String × Except String RunResult)) :
    List (String × RunResult) :=
  registry.map (fun p =>
    match p.2 with
    | .ok r => (p.1, r)
    | .error e => (p.1, crashResult p.1 e))

/-- The summary dictionary of `_generate_execution_summary`,
src/scrapers/scraper_manager.py lines 138-154 (time fields not modelled). -/
structure ExecutionSummary where
  total_scrapers : Nat
  successful_scrapers : Nat
  failed_scrapers : Nat
  total_new_content : Nat
  total_content_found : Nat
deriving Repr, DecidableEq

/-- `ScraperManager._generate_execution_summary`, src/scrapers/scraper_manager.py
lines 138-154: count successes/failures over the collected results and sum
`new_content_count` / `total_content_found` with `.get(key, 0)` semantics
(a result lacking the key contributes 0). -/
def _generate_execution_summary (registry_size : Nat)
    (results : List (String × RunResult)) : ExecutionSummary :=
  { total_scrapers := registry_size
    successful_scrapers := results.countP (fun p => p.2.success)
    failed_scrapers := results.countP (fun p => !p.2.success)
    total_new_content :=
      (results.map (fun p => p.2.new_content_count.getD 0)).sum
    total_content_found :=
      (results.map (fun p => p.2.total_content_found.getD 0)).sum }

/-- The consolidated return value of `run_all_scrapers`,
src/scrapers/scraper_manager.py lines 65-70. -/
structure AggregateResult where
  success : Bool
  summary : ExecutionSummary
  scraper_results : List (String × RunResult)
deriving Repr, DecidableEq

/-- The aggregate built at the end of `run_all_scrapers` (lines 55-70):
`success = successful_scrapers > 0`. -/
def mkAggregate (registry_size : Nat) (results : List (String × RunResult)) :
    AggregateResult :=
  let summary := _generate_execution_summary registry_size results
  { success := decide (summary.successful_scrapers > 0),
    summary := summary, scraper_results := results }

/-- `ScraperManager.run_all_scrapers` with `parallel=False`,
src/scrapers/scraper_manager.py lines 34-70: run sequentially, then summarize. -/
def run_all_scrapers_sequential
    (registry : List (String × Except String RunResult)) : AggregateResult :=
  mkAggregate registry.length (_run_scrapers_sequential registry)

/-- What one worker thread of the parallel pool does relative to the
coordinator's wall-clock timeout: it either completes within the timeout
(its `run_scraping` call returning a result or raising), or it is still
running when the timeout elapses. -/
inductive WorkerOutcome where
  | completes (r : Except String RunResult)
  | straggles
deriving Repr

/-- Whether a worker finishes within the timeout. -/
def WorkerOutcome.finished : WorkerOutcome → Bool
  | .completes _ => true
  | .straggles => false

/-- The message of the `concurrent.futures.TimeoutError` that
`as_completed(..., timeout=timeout)` raises when unfinished futures remain at
the deadline. -/
def timeoutErrorMsg : String := "TimeoutError: futures unfinished at deadline"

/-- The entries collected for the workers that did complete: `as_completed`
yields exactly the finished futures, and the loop body's `try/except` turns a
raising `future.result()` into a failed entry
(src/scrapers/scraper_manager.py lines 84-105). -/
def completedResults (registry : List (String × WorkerOutcome)) :
    List (String × RunResult) :=
  registry.filterMap (fun p =>
    match p.2 with
    | .completes (.ok r) => some (p.1, r)
    | .completes (.error e) => some (p.1, crashResult p.1 e)
    | .straggles => none)

/-- `ScraperManager._run_scrapers_parallel`, src/scrapers/scraper_manager.py
lines 72-107: one thread per registered scraper; results are collected from
`as_completed(future_to_scraper, timeout=timeout)`.  If every worker finishes
within the timeout the collected dictionary is returned; if any worker is
still running at the deadline, `as_completed` raises `TimeoutError` from the
`for` statement itself — outside the loop body's `try` — so the exception
escapes the function and the partial `results` dictionary is lost. -/
def _run_scrapers_parallel (registry : List (String × WorkerOutcome)) :
    Except String (List (String × RunResult)) :=
  if registry.all (fun p => p.2.finished) then .ok (completedResults registry)
  else .error timeoutErrorMsg

/-- `ScraperManager.run_all_scrapers` with `parallel=True`,
src/scrapers/scraper_manager.py lines 34-70: the `TimeoutError` escaping
`_run_scrapers_parallel` propagates out of `run_all_scrapers`, which has no
handler around the call at line 51; otherwise the summary and aggregate are
built from the collected results. -/
def run_all_scrapers_parallel (registry : List (String × WorkerOutcome)) :
    Except String AggregateResult :=
  match _run_scrapers_parallel registry with
  | .error e => .error e
  | .ok results => .ok (mkAggregate registry.length results)

/-- What a parsed lock file contains, as `_is_lock_stale` reads it back
(src/scrapers/util.py lines 176-194): either valid JSON, whose `"pid"` field
may be absent, or content that fails to parse. -/
inductive LockFileContent where
  | parsed (pid : Option Nat) (started plat : String)
  | unreadable
deriving Repr, DecidableEq

/-- `FileLocker._is_lock_stale`, src/scrapers/util.py lines 176-194: an
unreadable file is stale; a missing or falsy (`0`) pid is stale
(`if not pid: return True`); otherwise the lock is stale exactly when the
platform liveness probe (`os.kill(pid, 0)` / `tasklist`) reports the process
dead.  `alive` is the probe. -/
def _is_lock_stale (alive : Nat → Bool) : LockFileContent → Bool
  | .unreadable => true
  | .parsed none _ _ => true
  | .parsed (some pid) _ _ => if pid = 0 then true else !alive pid

/-- The `RuntimeError` message on a held lock: the "lock file exists and
process is still running" error raised at src/scrapers/util.py line 92 is
caught by the outer handler (line 139) and re-raised as
"Could not acquire lock". -/
def lockHeldMsg : String := "Could not acquire lock: held by live process"

/-- `FileLocker.__enter__`, src/scrapers/util.py lines 84-145: if the lock
file exists and is stale, delete it and proceed; if its owner is alive, raise
immediately (no waiting or retry); on success write the new owner's
`pid/started/platform` JSON.  The filesystem state is the lock file's content
(`none` when absent); the OS advisory `flock` taken on the fresh handle is a
second guard against a racing creator and succeeds in this single-acquirer
model. -/
def fileLockerEnter (alive : Nat → Bool) (my_pid : Nat) (started plat : String)
    (fs : Option LockFileContent) : Except String (Option LockFileContent) :=
  match fs with
  | some content =>
      if _is_lock_stale alive content then
        .ok (some (.parsed (some my_pid) started plat))
      else
        .error lockHeldMsg
  | none => .ok (some (.parsed (some my_pid) started plat))

/-- A sample candidate item used by the concrete evaluations. -/
def cW : ScrapedContent :=
  { id := "doc1", title := "Rate decision", content := "body text",
    url := "http-u", published_date := 3, source := "s",
    metadata := [("author", "a")], content_hash := "h1" }

/-- A second sample candidate with a different identity. -/
def cW2 : ScrapedContent :=
  { id := "doc2", title := "Minutes", content := "other text",
    url := "http-v", published_date := 4, source := "s",
    metadata := [], content_hash := "h2" }

/-- An empty store. -/
def dbEmpty : DB := { scraper_states := [], scraped_data := [] }

/-- The `scraper_states` row of `db5`. -/
def state5 : ScraperState :=
  { scraper_name := "s", last_check_time := some 5,
    last_run_metadata := none, total_runs := 0, successful_runs := 0 }

/-- A store whose checkpoint for source "s" is 5 and which holds no content. -/
def db5 : DB := { scraper_states := [state5], scraped_data := [] }

/-- The stored record corresponding to `cW`. -/
def recCW : ScrapedData :=
  { rec_id := "r1", external_id := some "doc1", source := "s",
    url := "http-u", target_content := "Rate decision",
    raw_content := "body text",
    extra_metadata := [("content_hash", "h1")] }

/-- A store already holding `cW` with its current hash recorded. -/
def dbWithCW : DB := { scraper_states := [], scraped_data := [recCW] }

/-- Environment with a given fetch result and no store failures of any kind. -/
def benignEnv (cs : List ScrapedContent) : ScrapeEnv :=
  ⟨Except.ok cs, fun _ => false, fun _ => false, false⟩

/-- Environment fetching `c1` then `c2` in which persisting `c2` raises. -/
def twoItemEnv (c1 c2 : ScrapedContent) : ScrapeEnv :=
  ⟨Except.ok [c1, c2], fun _ => false, fun i => i == c2.id, false⟩

/-- Environment fetching `c` in which the freshness lookup for `c` raises. -/
def freshFailEnv (c : ScrapedContent) : ScrapeEnv :=
  ⟨Except.ok [c], fun i => i == c.id, fun _ => false, false⟩

/-- Environment: fetch yields nothing, every store session succeeds. -/
def envEmptyFetch : ScrapeEnv :=
  ⟨Except.ok [], fun _ => false, fun _ => false, false⟩

/-- Environment: fetch yields `cW`, every store session succeeds. -/
def envOneItem : ScrapeEnv :=
  ⟨Except.ok [cW], fun _ => false, fun _ => false, false⟩

/-- Environment: fetch yields `cW`, but persisting any item raises. -/
def envSaveFails : ScrapeEnv :=
  ⟨Except.ok [cW], fun _ => false, fun _ => true, false⟩

/-- Concrete registry with two succeeding scrapers around one whose run
raises. -/
def regC4 : List (String × Except String RunResult) :=
  [("a", Except.ok { success := true, scraper_name := "a" }),
   ("b", Except.error "boom"),
   ("c", Except.ok { success := true, scraper_name := "c" })]

/-- Parallel registry with one completed scraper and one straggler. -/
def regStraggler : List (String × WorkerOutcome) :=
  [("a", .completes (Except.ok { success := true, scraper_name := "a" })),
   ("b", .straggles)]

/-- Parallel registry whose two workers both complete in time. -/
def regAllDone : List (String × WorkerOutcome) :=
  [("a", .completes (Except.ok { success := true, scraper_name := "a" })),
   ("b", .completes (Except.error "boom"))]

end FedSignal

namespace FedSignal

/-- `find?` ignores a map that fixes every element satisfying the predicate
and never changes an element's predicate value. -/
theorem find?_map_invariant {α : Type} (g : α → α) (p : α → Bool) (l : List α)
    (hp : ∀ x, p (g x) = p x) (hg : ∀ x, p x = true → g x = x) :
    (l.map g).find? p = l.find? p := by
  induction l with
  | nil => rfl
  | cons x xs ih =>
      by_cases h : p x = true
      · rw [List.map_cons, List.find?_cons_of_pos _ (by rw [hp]; exact h),
          List.find?_cons_of_pos _ h, hg x h]
      · rw [List.map_cons,
          List.find?_cons_of_neg _ (by rw [hp]; simpa using h),
          List.find?_cons_of_neg _ (by simpa using h), ih]

/-- `find?` commutes with a map that fixes every element NOT satisfying the
predicate and never changes an element's predicate value. -/
theorem find?_map_update {α : Type} (g : α → α) (p : α → Bool) (l : List α)
    (hp : ∀ x, p (g x) = p x) (hg : ∀ x, p x = false → g x = x) :
    (l.map g).find? p = (l.find? p).map g := by
  induction l with
  | nil => rfl
  | cons x xs ih =>
      by_cases h : p x = true
      · rw [List.map_cons, List.find?_cons_of_pos _ (by rw [hp]; exact h),
          List.find?_cons_of_pos _ h, Option.map_some']
      · rw [List.map_cons,
          List.find?_cons_of_neg _ (by rw [hp]; simpa using h),
          List.find?_cons_of_neg _ (by simpa using h), ih]

/-- `dictSetFn` never changes whether an entry's key equals another key. -/
theorem dictSetFn_key (kw v k : String) (h : kw ≠ k) (x : String × String) :
    ((dictSetFn kw v x).1 == k) = (x.1 == k) := by
  unfold dictSetFn
  by_cases hx : (x.1 == kw) = true
  · rw [if_pos hx]
    have hx1 : x.1 = kw := by simpa using hx
    rw [hx1]
  · rw [if_neg hx]

/-- `dictSetFn` fixes every entry whose key is a different key `k`. -/
theorem dictSetFn_fix (kw v k : String) (h : kw ≠ k) (x : String × String)
    (hx : (x.1 == k) = true) : dictSetFn kw v x = x := by
  have hx1 : x.1 = k := by simpa using hx
  have hne : ¬(x.1 == kw) = true := by
    rw [hx1]
    simp only [beq_iff_eq]
    exact fun hc => h hc.symm
  unfold dictSetFn
  rw [if_neg hne]

/-- Writing one key leaves every other key's lookup unchanged. -/
theorem dictGet_dictInsert_ne (d : List (String × String)) (kw v k dflt : String)
    (h : kw ≠ k) : dictGet (dictInsert d kw v) k dflt = dictGet d k dflt := by
  unfold dictInsert
  by_cases hk : dictHasKey d kw
  · rw [if_pos hk]
    unfold dictGet
    rw [find?_map_invariant (dictSetFn kw v) (fun q => q.1 == k) d
      (dictSetFn_key kw v k h) (dictSetFn_fix kw v k h)]
  · rw [if_neg hk]
    unfold dictGet
    rw [List.find?_append]
    have hkw : ¬((kw, v).1 == k) = true := by
      simp only [beq_iff_eq]
      exact h
    have hone : List.find? (fun q => q.1 == k) [(kw, v)] = none := by
      rw [List.find?_singleton, if_neg hkw]
    rw [hone, Option.or_none]

/-- Merging a dict that does not mention key `k` leaves `k`'s lookup
unchanged. -/
theorem dictGet_dictMerge_of_not_hasKey (m : List (String × String)) :
    ∀ (base : List (String × String)) (k dflt : String),
      dictHasKey m k = false →
      dictGet (dictMerge base m) k dflt = dictGet base k dflt := by
  induction m with
  | nil => intro base k dflt _; rfl
  | cons kv m ih =>
      intro base k dflt h
      have h2 : ((kv.1 == k) || dictHasKey m k) = false := by
        simpa [dictHasKey, List.any_cons] using h
      rw [Bool.or_eq_false_iff] at h2
      show dictGet (dictMerge (dictInsert base kv.1 kv.2) m) k dflt = _
      rw [ih _ k dflt h2.2,
        dictGet_dictInsert_ne _ _ _ _ _ (by simpa using h2.1)]

/-- Two stores with the same `scraped_data` table agree on stored hashes. -/
theorem storedHash_congr (db db2 : DB)
    (h : db2.scraped_data = db.scraped_data) (name i : String) :
    storedHash db2 name i = storedHash db name i := by
  unfold storedHash findRecord
  rw [h]

/-- `updRecordFn` never changes a record's identity predicate. -/
theorem updRecordFn_pred (name url tc rc i k : String)
    (m : List (String × String)) (x : ScrapedData) :
    ((updRecordFn name url tc rc m i x).source == name &&
      (updRecordFn name url tc rc m i x).external_id == some k) =
    (x.source == name && x.external_id == some k) := by
  unfold updRecordFn
  by_cases hx : (x.source == name && x.external_id == some i) = true
  · rw [if_pos hx]
  · rw [if_neg hx]

/-- `updRecordFn` for identity `i` fixes every record with identity `j ≠ i`. -/
theorem updRecordFn_fix (name url tc rc i j : String)
    (m : List (String × String)) (hij : j ≠ i) (x : ScrapedData)
    (hx : (x.source == name && x.external_id == some j) = true) :
    updRecordFn name url tc rc m i x = x := by
  have hxj : x.external_id = some j := by
    have h2 := (Bool.and_eq_true _ _).mp hx
    simpa using h2.2
  have hne : ¬(x.source == name && x.external_id == some i) = true := by
    intro hc
    have h2 := (Bool.and_eq_true _ _).mp hc
    have h3 : x.external_id = some i := by simpa using h2.2
    rw [hxj] at h3
    exact hij (by simpa using h3)
  unfold updRecordFn
  rw [if_neg hne]

/-- After `save_scraped_data` on identity `(name, i)`, the stored hash for
that identity is the one inside the written metadata. -/
theorem storedHash_save (db : DB) (name url tc rc i : String)
    (m : List (String × String)) :
    storedHash (save_scraped_data db name url tc rc m i).2 name i =
      some (dictGet m "content_hash" "") := by
  unfold save_scraped_data
  cases hfind : findRecord db name i with
  | none =>
      unfold findRecord at hfind
      unfold storedHash findRecord
      dsimp only
      rw [List.find?_append, hfind, Option.none_or]
      simp
  | some existing =>
      unfold findRecord at hfind
      have hpred := List.find?_some hfind
      unfold storedHash findRecord
      dsimp only
      rw [find?_map_update (updRecordFn name url tc rc m i)
        (fun r => r.source == name && r.external_id == some i) db.scraped_data
        (updRecordFn_pred name url tc rc i i m)
        (fun x hx => by
          have hx2 : (x.source == name && x.external_id == some i) = false := hx
          unfold updRecordFn
          rw [if_neg (by rw [hx2]; exact Bool.false_ne_true)]),
        hfind, Option.map_some', Option.map_some']
      unfold updRecordFn
      rw [if_pos hpred]

/-- `save_scraped_data` on identity `(name, i)` leaves every other identity's
stored hash unchanged. -/
theorem storedHash_save_frame (db : DB) (name url tc rc i : String)
    (m : List (String × String)) (j : String) (hij : j ≠ i) :
    storedHash (save_scraped_data db name url tc rc m i).2 name j =
      storedHash db name j := by
  unfold save_scraped_data
  cases hfind : findRecord db name i with
  | none =>
      unfold storedHash findRecord
      dsimp only
      rw [List.find?_append]
      have hji : ¬(some i == some j) = true := by
        simp only [beq_iff_eq, Option.some.injEq]
        exact fun hc => hij hc.symm
      have hone : List.find?
          (fun r : ScrapedData => r.source == name && r.external_id == some j)
          [{ rec_id := "rec-" ++ name ++ "-" ++ i, external_id := some i,
             source := name, url := url, target_content := tc,
             raw_content := rc, extra_metadata := m }] = none := by
        rw [List.find?_singleton, if_neg]
        simp only [Bool.and_eq_true]
        exact fun hc => hji hc.2
      rw [hone, Option.or_none]
  | some existing =>
      unfold storedHash findRecord
      dsimp only
      rw [find?_map_invariant (updRecordFn name url tc rc m i)
        (fun r => r.source == name && r.external_id == some j) db.scraped_data
        (updRecordFn_pred name url tc rc i j m)
        (fun x hx => updRecordFn_fix name url tc rc i j m hij x hx)]

/-- When the content-write session raises, `_save_content` returns `None` and
the store is untouched. -/
theorem _save_content_of_fail (env : ScrapeEnv) (db : DB) (name : String)
    (c : ScrapedContent) (hs : env.save_fails c.id = true) :
    _save_content env db name c = (none, db) := by
  unfold _save_content
  rw [hs]
  rfl

/-- When the content-write session succeeds, `_save_content` delegates to
`save_scraped_data` with the merged metadata. -/
theorem _save_content_of_ok (env : ScrapeEnv) (db : DB) (name : String)
    (c : ScrapedContent) (hs : env.save_fails c.id = false) :
    _save_content env db name c =
      (some (save_scraped_data db name c.url c.title c.content
        (dictMerge [("content_hash", c.content_hash),
          ("published_date", toString c.published_date)] c.metadata) c.id).1,
       (save_scraped_data db name c.url c.title c.content
        (dictMerge [("content_hash", c.content_hash),
          ("published_date", toString c.published_date)] c.metadata) c.id).2) := by
  unfold _save_content
  rw [hs, if_neg Bool.false_ne_true]

/-- A successful `_save_content` leaves the stored hash of the item's identity
equal to the candidate's hash, provided its own metadata does not carry a
`content_hash` entry that would overwrite it in the dict merge. -/
theorem storedHash_save_content (env : ScrapeEnv) (db : DB) (name : String)
    (c : ScrapedContent) (hs : env.save_fails c.id = false)
    (hm : dictHasKey c.metadata "content_hash" = false) :
    storedHash (_save_content env db name c).2 name c.id =
      some c.content_hash := by
  rw [_save_content_of_ok env db name c hs]
  dsimp only
  rw [storedHash_save]
  rw [dictGet_dictMerge_of_not_hasKey c.metadata _ _ _ hm]
  unfold dictGet
  rw [List.find?_cons_of_pos _ (by exact beq_self_eq_true "content_hash")]

/-- `_save_content` never changes the stored hash of a different identity. -/
theorem storedHash_save_content_frame (env : ScrapeEnv) (db : DB)
    (name : String) (c : ScrapedContent) (j : String) (hj : j ≠ c.id) :
    storedHash (_save_content env db name c).2 name j =
      storedHash db name j := by
  by_cases hs : env.save_fails c.id = true
  · rw [_save_content_of_fail env db name c hs]
  · rw [_save_content_of_ok env db name c (by
      cases hb : env.save_fails c.id
      · rfl
      · exact absurd hb hs)]
    dsimp only
    rw [storedHash_save_frame _ _ _ _ _ _ _ _ hj]

/-- `_save_check_time` touches only the `scraper_states` table. -/
theorem scraped_data_save_check_time (env : ScrapeEnv) (db : DB)
    (name : String) (t : Nat) :
    (_save_check_time env db name t).scraped_data = db.scraped_data := by
  unfold _save_check_time
  by_cases hc : env.checkpoint_save_fails = true
  · rw [if_pos hc]
  · rw [if_neg hc]
    cases findState db name <;> rfl

/-- `updStateFn` never changes a state row's name predicate. -/
theorem updStateFn_pred (name : String) (t : Nat) (x : ScraperState) :
    ((updStateFn name t x).scraper_name == name) = (x.scraper_name == name) := by
  unfold updStateFn
  by_cases hx : (x.scraper_name == name) = true
  · rw [if_pos hx]
  · rw [if_neg hx]

/-- After a non-failing `_save_check_time`, the persisted checkpoint is the
written time. -/
theorem lastCheckOf_save_check_time (env : ScrapeEnv) (db : DB) (name : String)
    (t : Nat) (h : env.checkpoint_save_fails = false) :
    lastCheckOf (_save_check_time env db name t) name = some t := by
  unfold _save_check_time
  rw [h, if_neg Bool.false_ne_true]
  cases hfind : findState db name with
  | some s0 =>
      unfold findState at hfind
      have hpred := List.find?_some hfind
      unfold lastCheckOf findState
      dsimp only
      rw [find?_map_update (updStateFn name t)
        (fun s => s.scraper_name == name) db.scraper_states
        (updStateFn_pred name t)
        (fun x hx => by
          have hx2 : (x.scraper_name == name) = false := hx
          unfold updStateFn
          rw [if_neg (by rw [hx2]; exact Bool.false_ne_true)]),
        hfind, Option.map_some']
      dsimp only
      unfold updStateFn
      rw [if_pos hpred]
  | none =>
      unfold findState at hfind
      unfold lastCheckOf findState
      dsimp only
      rw [List.find?_append, hfind, Option.none_or]
      simp

/-- `_is_content_new` reports new when the lookup session is healthy and no
record exists for the identity. -/
theorem _is_content_new_of_none (env : ScrapeEnv) (db : DB)
    (name i hsh : String) (hf : env.freshness_check_fails i = false)
    (hr : findRecord db name i = none) :
    _is_content_new env db name i hsh = true := by
  unfold _is_content_new
  rw [hf, if_neg Bool.false_ne_true, hr]

/-- The filtering loop never changes the stored hash of an identity that none
of the processed candidates carries. -/
theorem processContents_frame (env : ScrapeEnv) (name : String) (force : Bool)
    (j : String) :
    ∀ (cs : List ScrapedContent) (db : DB), (∀ c ∈ cs, c.id ≠ j) →
      storedHash (processContents env name force db cs).2 name j =
        storedHash db name j := by
  intro cs
  induction cs with
  | nil => intro db _; rfl
  | cons c0 rest ih =>
      intro db h
      have hj : j ≠ c0.id := fun hc => (h c0 (List.mem_cons_self _ _)) hc.symm
      have hrest : ∀ c ∈ rest, c.id ≠ j :=
        fun c hc => h c (List.mem_cons_of_mem _ hc)
      simp only [processContents]
      by_cases hn :
          (force || _is_content_new env db name c0.id c0.content_hash) = true
      · rw [if_pos hn]
        rcases hsc : _save_content env db name c0 with ⟨o, db1⟩
        have hfr : storedHash db1 name j = storedHash db name j := by
          have h0 := storedHash_save_content_frame env db name c0 j hj
          rw [hsc] at h0
          exact h0
        cases o with
        | some rid =>
            dsimp only
            rw [ih db1 hrest]
            exact hfr
        | none =>
            dsimp only
            rw [ih db1 hrest]
            exact hfr
      · rw [if_neg hn]
        exact ih db hrest

/-- After the filtering loop runs with healthy content-write sessions, every
processed candidate's identity holds that candidate's hash (candidates with
equal ids must agree on the hash, and candidate metadata must not smuggle a
`content_hash` entry past the dict merge). -/
theorem processContents_storedHash (env : ScrapeEnv) (name : String)
    (force : Bool) :
    ∀ (cs : List ScrapedContent) (db : DB),
      (∀ c ∈ cs, env.save_fails c.id = false) →
      (∀ c ∈ cs, dictHasKey c.metadata "content_hash" = false) →
      (∀ c ∈ cs, ∀ cx ∈ cs, c.id = cx.id → c.content_hash = cx.content_hash) →
      ∀ c ∈ cs, storedHash (processContents env name force db cs).2 name c.id =
        some c.content_hash := by
  intro cs
  induction cs with
  | nil => intro db _ _ _ c hc; cases hc
  | cons c0 rest ih =>
      intro db hsave hmeta hcons c hc
      have hsave0 : env.save_fails c0.id = false :=
        hsave c0 (List.mem_cons_self _ _)
      have hsave' : ∀ x ∈ rest, env.save_fails x.id = false :=
        fun x hx => hsave x (List.mem_cons_of_mem _ hx)
      have hmeta' : ∀ x ∈ rest, dictHasKey x.metadata "content_hash" = false :=
        fun x hx => hmeta x (List.mem_cons_of_mem _ hx)
      have hcons' : ∀ x ∈ rest, ∀ y ∈ rest,
          x.id = y.id → x.content_hash = y.content_hash :=
        fun x hx y hy =>
          hcons x (List.mem_cons_of_mem _ hx) y (List.mem_cons_of_mem _ hy)
      have key : ∀ db1 : DB, storedHash db1 name c0.id = some c0.content_hash →
          storedHash (processContents env name force db1 rest).2 name c.id =
            some c.content_hash := by
        intro db1 hA
        rcases List.mem_cons.mp hc with rfl | hcr
        · by_cases hex : ∃ cx ∈ rest, cx.id = c.id
          · obtain ⟨cx, hcx, hid⟩ := hex
            have h2 := ih db1 hsave' hmeta' hcons' cx hcx
            rw [hid] at h2
            rw [h2]
            have h3 : cx.content_hash = c.content_hash :=
              hcons cx (List.mem_cons_of_mem _ hcx) c
                (List.mem_cons_self _ _) hid
            rw [h3]
          · push_neg at hex
            rw [processContents_frame env name force c.id rest db1 hex]
            exact hA
        · exact ih db1 hsave' hmeta' hcons' c hcr
      simp only [processContents]
      by_cases hn :
          (force || _is_content_new env db name c0.id c0.content_hash) = true
      · rw [if_pos hn]
        rcases hsc : _save_content env db name c0 with ⟨o, db1⟩
        have hA : storedHash db1 name c0.id = some c0.content_hash := by
          have h0 := storedHash_save_content env db name c0 hsave0
            (hmeta c0 (List.mem_cons_self _ _))
          rw [hsc] at h0
          exact h0
        cases o with
        | some rid => dsimp only; exact key db1 hA
        | none => dsimp only; exact key db1 hA
      · rw [if_neg hn]
        have h2 : (force ||
            _is_content_new env db name c0.id c0.content_hash) = false := by
          cases hb : force || _is_content_new env db name c0.id c0.content_hash
          · rfl
          · exact absurd hb hn
        rw [Bool.or_eq_false_iff] at h2
        have hA : storedHash db name c0.id = some c0.content_hash := by
          have hnew := h2.2
          unfold _is_content_new at hnew
          by_cases hf : env.freshness_check_fails c0.id = true
          · rw [if_pos hf] at hnew
            exact absurd hnew (by simp)
          · rw [if_neg hf] at hnew
            cases hrec : findRecord db name c0.id with
            | none =>
                rw [hrec] at hnew
                exact absurd hnew (by simp)
            | some ex =>
                rw [hrec] at hnew
                have h3 : c0.content_hash =
                    dictGet ex.extra_metadata "content_hash" "" := by
                  simpa using hnew
                unfold storedHash
                rw [hrec, Option.map_some', ← h3]
        exact key db hA

/-- When every fetched candidate already has its hash stored and the lookup
sessions are healthy, the filtering loop (unforced) saves nothing and leaves
the store unchanged. -/
theorem processContents_no_new (env : ScrapeEnv) (name : String) :
    ∀ (cs : List ScrapedContent) (db : DB),
      (∀ c ∈ cs, env.freshness_check_fails c.id = false) →
      (∀ c ∈ cs, storedHash db name c.id = some c.content_hash) →
      processContents env name false db cs = ([], db) := by
  intro cs
  induction cs with
  | nil => intro db _ _; rfl
  | cons c0 rest ih =>
      intro db hfresh hstored
      have h0 : _is_content_new env db name c0.id c0.content_hash = false := by
        unfold _is_content_new
        rw [if_neg (by
          rw [hfresh c0 (List.mem_cons_self _ _)]
          exact Bool.false_ne_true)]
        have hst := hstored c0 (List.mem_cons_self _ _)
        unfold storedHash at hst
        cases hrec : findRecord db name c0.id with
        | none =>
            rw [hrec] at hst
            exact absurd hst (by simp)
        | some ex =>
            rw [hrec] at hst
            have h3 : dictGet ex.extra_metadata "content_hash" "" =
                c0.content_hash := by
              simpa using hst
            dsimp only
            rw [h3]
            exact bne_self_eq_false _
      have hcond : (false ||
          _is_content_new env db name c0.id c0.content_hash) = false := by
        rw [Bool.false_or]
        exact h0
      simp only [processContents]
      rw [if_neg (by rw [hcond]; exact Bool.false_ne_true)]
      exact ih db (fun x hx => hfresh x (List.mem_cons_of_mem _ hx))
        (fun x hx => hstored x (List.mem_cons_of_mem _ hx))

/-- Every worker that finishes contributes exactly one collected entry. -/
theorem completedResults_length :
    ∀ (registry : List (String × WorkerOutcome)),
      (∀ p ∈ registry, p.2.finished = true) →
      (completedResults registry).length = registry.length := by
  intro registry
  induction registry with
  | nil => intro _; rfl
  | cons p rest ih =>
      intro h
      obtain ⟨n, b⟩ := p
      have hrest : ∀ q ∈ rest, q.2.finished = true :=
        fun q hq => h q (List.mem_cons_of_mem _ hq)
      cases b with
      | completes r =>
          cases r with
          | ok rr =>
              simp only [completedResults, List.filterMap_cons,
                List.length_cons] at ih ⊢
              rw [ih hrest]
          | error e =>
              simp only [completedResults, List.filterMap_cons,
                List.length_cons] at ih ⊢
              rw [ih hrest]
      | straggles =>
          exact absurd (h (n, WorkerOutcome.straggles)
            (List.mem_cons_self _ _)) (by simp [WorkerOutcome.finished])

end FedSignal

namespace FedSignal

/-- C1: a raising fetch is converted to a failed result carrying the error and
the store — in particular the persisted checkpoint — is untouched. -/
theorem claim_C1_fetch_failure_leaves_checkpoint
    (e : String) (ff sf : String → Bool) (cf : Bool) (name : String)
    (lct : Option Nat) (start force : _) (db : DB) :
    let env : ScrapeEnv := ⟨Except.error e, ff, sf, cf⟩
    let out := run_scraping env name lct start force db
    out.1.success = false ∧ out.1.error = some e ∧ out.2 = db ∧
      lastCheckOf out.2 name = lastCheckOf db name := by
  refine ⟨rfl, rfl, rfl, rfl⟩

/-- C3: the aggregate's `success` is true exactly when some per-source result
succeeded, and its `total_new_content` / `total_content_found` are the sums of
the per-source counts (a result lacking the field contributes 0, the
`.get(key, 0)` read). -/
theorem claim_C3_aggregation_rule
    (registry : List (String × Except String RunResult)) :
    ((run_all_scrapers_sequential registry).success = true ↔
      ∃ p ∈ (run_all_scrapers_sequential registry).scraper_results,
        p.2.success = true) ∧
    (run_all_scrapers_sequential registry).summary.total_new_content =
      ((run_all_scrapers_sequential registry).scraper_results.map
        (fun p => p.2.new_content_count.getD 0)).sum ∧
    (run_all_scrapers_sequential registry).summary.total_content_found =
      ((run_all_scrapers_sequential registry).scraper_results.map
        (fun p => p.2.total_content_found.getD 0)).sum := by
  refine ⟨?_, rfl, rfl⟩
  show decide (0 < (_run_scrapers_sequential registry).countP
      (fun p => p.2.success)) = true ↔ _
  rw [decide_eq_true_eq, List.countP_pos_iff]
  exact Iff.rfl

/-- C4: sequential coordination yields exactly one entry per registered
scraper, in order: a scraper whose run raises gets a failed entry with the
error captured, a scraper whose run returns is recorded unchanged, and the
aggregate succeeds as soon as one sibling's result succeeded. -/
theorem claim_C4_fault_isolation
    (registry : List (String × Except String RunResult)) :
    (run_all_scrapers_sequential registry).scraper_results.length =
      registry.length ∧
    List.Forall₂ (fun p q =>
        q.1 = p.1 ∧ (∀ r, p.2 = Except.ok r → q.2 = r) ∧
        (∀ e, p.2 = Except.error e →
          q.2.success = false ∧
          q.2.error = some ("Execution failed: " ++ e)))
      registry (run_all_scrapers_sequential registry).scraper_results ∧
    ((∃ p ∈ registry, ∃ r, p.2 = Except.ok r ∧ r.success = true) →
      (run_all_scrapers_sequential registry).success = true) := by
  have hfa : List.Forall₂ (fun p q =>
      q.1 = p.1 ∧ (∀ r, p.2 = Except.ok r → q.2 = r) ∧
      (∀ e, p.2 = Except.error e →
        q.2.success = false ∧
        q.2.error = some ("Execution failed: " ++ e)))
      registry (run_all_scrapers_sequential registry).scraper_results := by
    show List.Forall₂ _ registry (_run_scrapers_sequential registry)
    induction registry with
    | nil => exact List.Forall₂.nil
    | cons p rest ih =>
        obtain ⟨n, b⟩ := p
        refine List.Forall₂.cons ?_ ih
        cases b with
        | ok r =>
            refine ⟨rfl, ?_, ?_⟩
            · intro r' hr'; cases hr'; rfl
            · intro e he; cases he
        | error e =>
            refine ⟨rfl, ?_, ?_⟩
            · intro r' hr'; cases hr'
            · intro e' he'; cases he'
              exact ⟨rfl, rfl⟩
  refine ⟨hfa.length_eq.symm, hfa, ?_⟩
  rintro ⟨⟨n, b⟩, hmem, r, hok, hsucc⟩
  cases hok
  show decide (0 < (_run_scrapers_sequential registry).countP
      (fun q => q.2.success)) = true
  rw [decide_eq_true_eq, List.countP_pos_iff]
  exact ⟨(n, r), List.mem_map_of_mem _ hmem, hsucc⟩

/-- Witness for C4 at `regC4`. -/
theorem claim_C4_fault_isolation_witness :
    (run_all_scrapers_sequential regC4).scraper_results.length = regC4.length ∧
    (run_all_scrapers_sequential regC4).success = true :=
  ⟨(claim_C4_fault_isolation regC4).1,
   (claim_C4_fault_isolation regC4).2.2
     ⟨("a", Except.ok { success := true, scraper_name := "a" }),
      List.mem_cons_self _ _,
      { success := true, scraper_name := "a" }, rfl, rfl⟩⟩

/-- C8: acquiring on a path whose lock file records a dead owner (or no pid at
all) succeeds, replacing the file with the new owner's pid/started/platform
record; acquiring while the recorded owner is a live process raises
immediately. -/
theorem claim_C8_stale_lock_recovery_live_rejection
    (alive : Nat → Bool) (my_pid : Nat) (started plat os op : String)
    (pidOpt : Option Nat) :
    ((pidOpt = none ∨ ∃ pid, pidOpt = some pid ∧ alive pid = false) →
      fileLockerEnter alive my_pid started plat
          (some (.parsed pidOpt os op)) =
        .ok (some (.parsed (some my_pid) started plat))) ∧
    (∀ pid, pidOpt = some pid → 0 < pid → alive pid = true →
      fileLockerEnter alive my_pid started plat
          (some (.parsed pidOpt os op)) = .error lockHeldMsg) := by
  constructor
  · rintro (rfl | ⟨pid, rfl, hdead⟩)
    · rfl
    · simp [fileLockerEnter, _is_lock_stale, hdead]
  · rintro pid rfl hpos halive
    simp [fileLockerEnter, _is_lock_stale, Nat.pos_iff_ne_zero.mp hpos, halive]

/-- Witness for C8: the probe reports only pid 7 alive; a file recording the
dead pid 3 is recovered, a file recording the live pid 7 is rejected. -/
theorem claim_C8_stale_lock_recovery_live_rejection_witness :
    fileLockerEnter (fun p => p == 7) 9 "t1" "linux"
        (some (.parsed (some 3) "t0" "linux")) =
      .ok (some (.parsed (some 9) "t1" "linux")) ∧
    fileLockerEnter (fun p => p == 7) 9 "t1" "linux"
        (some (.parsed (some 7) "t0" "linux")) = .error lockHeldMsg :=
  ⟨(claim_C8_stale_lock_recovery_live_rejection (fun p => p == 7) 9 "t1"
      "linux" "t0" "linux" (some 3)).1 (Or.inr ⟨3, rfl, by decide⟩),
   (claim_C8_stale_lock_recovery_live_rejection (fun p => p == 7) 9 "t1"
      "linux" "t0" "linux" (some 7)).2 7 rfl (by decide) (by decide)⟩

/-- C2: with no upstream change (the same fetch result) and healthy store
sessions, the second of two consecutive unforced runs classifies every
candidate unchanged and saves nothing (`new_content_count == 0`).  Candidates
with equal external ids must carry equal hashes, and candidate metadata must
not itself contain a `content_hash` entry (the Python dict merge in
`_save_content` would let it overwrite the stored fingerprint). -/
theorem claim_C2_second_run_saves_nothing
    (db : DB) (name : String) (lct1 lct2 : Option Nat) (t1 t2 : Nat)
    (cs : List ScrapedContent)
    (hcons : ∀ c ∈ cs, ∀ cx ∈ cs, c.id = cx.id →
      c.content_hash = cx.content_hash)
    (hmeta : ∀ c ∈ cs, dictHasKey c.metadata "content_hash" = false) :
    (run_scraping (benignEnv cs) name lct2 t2 false
      (run_scraping (benignEnv cs) name lct1 t1 false db).2).1.new_content_count
        = some 0 ∧
    (run_scraping (benignEnv cs) name lct2 t2 false
      (run_scraping (benignEnv cs) name lct1 t1 false db).2).1.success
        = true := by
  cases cs with
  | nil => exact ⟨rfl, rfl⟩
  | cons c0 rest =>
      have hsave : ∀ c ∈ c0 :: rest,
          (benignEnv (c0 :: rest)).save_fails c.id = false := fun c _ => rfl
      have hfresh : ∀ c ∈ c0 :: rest,
          (benignEnv (c0 :: rest)).freshness_check_fails c.id = false :=
        fun c _ => rfl
      have hstored1 := processContents_storedHash (benignEnv (c0 :: rest))
        name false (c0 :: rest) db hsave hmeta hcons
      have hstored1' : ∀ c ∈ c0 :: rest,
          storedHash (run_scraping (benignEnv (c0 :: rest)) name lct1 t1 false
            db).2 name c.id = some c.content_hash := by
        intro c hcm
        have hdb1 : (run_scraping (benignEnv (c0 :: rest)) name lct1 t1 false
            db).2 = _save_check_time (benignEnv (c0 :: rest))
            (processContents (benignEnv (c0 :: rest)) name false db
              (c0 :: rest)).2 name t1 := rfl
        rw [hdb1,
          storedHash_congr _ _ (scraped_data_save_check_time _ _ _ _) name c.id]
        exact hstored1 c hcm
      have h2 := processContents_no_new (benignEnv (c0 :: rest)) name
        (c0 :: rest)
        (run_scraping (benignEnv (c0 :: rest)) name lct1 t1 false db).2
        hfresh hstored1'
      refine ⟨?_, rfl⟩
      show some (processContents (benignEnv (c0 :: rest)) name false
        (run_scraping (benignEnv (c0 :: rest)) name lct1 t1 false db).2
        (c0 :: rest)).1.length = some 0
      rw [h2]
      rfl

/-- Witness for C2 at one candidate over an empty store. -/
theorem claim_C2_second_run_saves_nothing_witness :
    (run_scraping (benignEnv [cW]) "s" (some 1) 2 false
      (run_scraping (benignEnv [cW]) "s" none 1 false dbEmpty).2).1.new_content_count
        = some 0 :=
  (claim_C2_second_run_saves_nothing dbEmpty "s" none (some 1) 1 2 [cW]
    (by decide) (by decide)).1

/-- C5 counterexample: a run that completes without raising but finds no new
content (and is not forced) returns early WITHOUT advancing the persisted
checkpoint, so `last_check_time` stays at its old value 5 instead of the run
start 10. -/
theorem claim_C5_counterexample :
    (run_scraping envEmptyFetch "s" (some 5) 10 false db5).1.success = true ∧
    lastCheckOf (run_scraping envEmptyFetch "s" (some 5) 10 false db5).2 "s"
      = some 5 ∧
    lastCheckOf (run_scraping envEmptyFetch "s" (some 5) 10 false db5).2 "s"
      ≠ some 10 :=
  ⟨rfl, rfl, by decide⟩

/-- C5 (amended): every run that completes without raising AND either fetched
at least one candidate or was forced advances the persisted checkpoint to the
run's start timestamp; the empty un-forced fetch returns early and leaves the
checkpoint untouched. -/
theorem claim_C5_checkpoint_set_to_run_start
    (fc sf : String → Bool) (name : String) (lct : Option Nat) (start : Nat)
    (force : Bool) (db : DB) (cs : List ScrapedContent)
    (h : cs ≠ [] ∨ force = true) :
    (run_scraping ⟨Except.ok cs, fc, sf, false⟩ name lct start force
      db).1.success = true ∧
    lastCheckOf (run_scraping ⟨Except.ok cs, fc, sf, false⟩ name lct start force
      db).2 name = some start := by
  have hcond : (cs.isEmpty && !force) = false := by
    rcases h with h | h
    · cases cs with
      | nil => exact absurd rfl h
      | cons a l => rfl
    · rw [h]
      exact Bool.and_false _
  unfold run_scraping
  dsimp only
  rw [if_neg (by rw [hcond]; exact Bool.false_ne_true)]
  exact ⟨rfl, lastCheckOf_save_check_time _ _ _ _ rfl⟩

/-- Witness for the amended C5 at one candidate over an empty store. -/
theorem claim_C5_checkpoint_set_to_run_start_witness :
    (run_scraping ⟨Except.ok [cW], fun _ => false, fun _ => false, false⟩ "s"
      none 7 false dbEmpty).1.success = true ∧
    lastCheckOf (run_scraping ⟨Except.ok [cW], fun _ => false, fun _ => false,
      false⟩ "s" none 7 false dbEmpty).2 "s" = some 7 :=
  claim_C5_checkpoint_set_to_run_start (fun _ => false) (fun _ => false) "s"
    none 7 false dbEmpty [cW] (Or.inl (List.cons_ne_nil _ _))

/-- C6: after one successful run of a fresh source, both persisted counters
are still 0 — `_save_check_time` writes only `last_check_time` and
`last_run_metadata`, and nothing in the scraper code increments
`total_runs` / `successful_runs`. -/
theorem claim_C6_counters_never_incremented :
    (run_scraping envOneItem "s" none 9 false dbEmpty).1.success = true ∧
    runCounters (run_scraping envOneItem "s" none 9 false dbEmpty).2 "s"
      = some (0, 0) :=
  ⟨rfl, by decide⟩

/-- C7 counterexample: when persisting the only fetched item raises, the run
still returns `success == true` (the error is swallowed inside `_save_content`
and the item merely skipped), contradicting the claim that the RunResult is
failed. -/
theorem claim_C7_counterexample :
    (run_scraping envSaveFails "s" none 9 false dbEmpty).1.success = true ∧
    (run_scraping envSaveFails "s" none 9 false dbEmpty).1.new_content_count
      = some 0 :=
  ⟨rfl, rfl⟩

/-- C7 (amended): a persistence failure on one item is caught inside
`_save_content`; the item is skipped (not counted) while the run keeps
`success == true`, and items committed earlier in the same run remain
persisted. -/
theorem claim_C7_save_failure_skips_item
    (c1 c2 : ScrapedContent) (name : String) (lct : Option Nat) (t : Nat)
    (db : DB) (hne : c1.id ≠ c2.id)
    (hnew1 : findRecord db name c1.id = none) :
    (run_scraping (twoItemEnv c1 c2) name lct t false db).1.success = true ∧
    (run_scraping (twoItemEnv c1 c2) name lct t false
      db).1.new_content_count = some 1 ∧
    (findRecord (run_scraping (twoItemEnv c1 c2) name lct t false db).2 name
      c1.id).isSome = true := by
  have hs1 : (twoItemEnv c1 c2).save_fails c1.id = false :=
    beq_eq_false_iff_ne.mpr hne
  have hs2 : ∀ dbx : DB, _save_content (twoItemEnv c1 c2) dbx name c2 =
      (none, dbx) :=
    fun dbx => _save_content_of_fail _ dbx name c2 (beq_self_eq_true c2.id)
  have hstep2 : ∀ dbx : DB,
      processContents (twoItemEnv c1 c2) name false dbx [c2] = ([], dbx) := by
    intro dbx
    simp only [processContents]
    by_cases hn : (false ||
        _is_content_new (twoItemEnv c1 c2) dbx name c2.id c2.content_hash)
        = true
    · rw [if_pos hn, hs2 dbx]
    · rw [if_neg hn]
  have hnew1' : _is_content_new (twoItemEnv c1 c2) db name c1.id
      c1.content_hash = true :=
    _is_content_new_of_none _ db name c1.id c1.content_hash rfl hnew1
  have hrun : processContents (twoItemEnv c1 c2) name false db [c1, c2] =
      ([(save_scraped_data db name c1.url c1.title c1.content
          (dictMerge [("content_hash", c1.content_hash),
            ("published_date", toString c1.published_date)] c1.metadata)
          c1.id).1],
       (save_scraped_data db name c1.url c1.title c1.content
          (dictMerge [("content_hash", c1.content_hash),
            ("published_date", toString c1.published_date)] c1.metadata)
          c1.id).2) := by
    simp only [processContents]
    rw [Bool.false_or, hnew1', if_pos rfl,
      _save_content_of_ok _ db name c1 hs1]
    dsimp only
    generalize (save_scraped_data db name c1.url c1.title c1.content
      (dictMerge [("content_hash", c1.content_hash),
        ("published_date", toString c1.published_date)] c1.metadata)
      c1.id).2 = X2
    by_cases hn2 : (false ||
        _is_content_new (twoItemEnv c1 c2) X2 name c2.id c2.content_hash)
        = true
    · rw [if_pos hn2, hs2 X2]
    · rw [if_neg hn2]
  refine ⟨rfl, ?_, ?_⟩
  · show some (processContents (twoItemEnv c1 c2) name false db
      [c1, c2]).1.length = some 1
    rw [hrun]
    rfl
  · have hsh : storedHash (run_scraping (twoItemEnv c1 c2) name lct t false
        db).2 name c1.id = some (dictGet
          (dictMerge [("content_hash", c1.content_hash),
            ("published_date", toString c1.published_date)] c1.metadata)
          "content_hash" "") := by
      have hdb2 : (run_scraping (twoItemEnv c1 c2) name lct t false db).2 =
          _save_check_time (twoItemEnv c1 c2)
            (processContents (twoItemEnv c1 c2) name false db [c1, c2]).2
            name t := rfl
      rw [hdb2,
        storedHash_congr _ _ (scraped_data_save_check_time _ _ _ _) name c1.id,
        hrun]
      exact storedHash_save db name c1.url c1.title c1.content c1.id _
    cases hrec : findRecord (run_scraping (twoItemEnv c1 c2) name lct t false
        db).2 name c1.id with
    | none =>
        unfold storedHash at hsh
        rw [hrec] at hsh
        exact absurd hsh (by simp)
    | some r => rfl

/-- Witness for the amended C7: `cW` persists, `cW2`'s write raises. -/
theorem claim_C7_save_failure_skips_item_witness :
    (run_scraping (twoItemEnv cW cW2) "s" none 9 false
      dbEmpty).1.new_content_count = some 1 ∧
    (findRecord (run_scraping (twoItemEnv cW cW2) "s" none 9 false dbEmpty).2
      "s" cW.id).isSome = true :=
  ⟨(claim_C7_save_failure_skips_item cW cW2 "s" none 9 dbEmpty (by decide)
      (by decide)).2.1,
   (claim_C7_save_failure_skips_item cW cW2 "s" none 9 dbEmpty (by decide)
      (by decide)).2.2⟩

/-- C9 counterexample: with one completed worker and one straggler,
`run_all_scrapers(parallel=True)` does not return an aggregate at all — the
`TimeoutError` raised by `as_completed` propagates and the completed result is
discarded. -/
theorem claim_C9_counterexample :
    run_all_scrapers_parallel regStraggler = Except.error timeoutErrorMsg :=
  rfl

/-- C9 (amended): if any registered worker misses the wall-clock timeout, the
parallel run raises (propagating `as_completed`'s `TimeoutError`) instead of
reporting the straggler in an aggregate; an aggregate — with one entry per
scraper — is returned only when every worker completes in time. -/
theorem claim_C9_timeout_raises
    (registry : List (String × WorkerOutcome)) :
    ((∃ p ∈ registry, p.2 = WorkerOutcome.straggles) →
      run_all_scrapers_parallel registry = Except.error timeoutErrorMsg) ∧
    ((∀ p ∈ registry, p.2 ≠ WorkerOutcome.straggles) →
      ∃ agg, run_all_scrapers_parallel registry = Except.ok agg ∧
        agg.scraper_results.length = registry.length) := by
  constructor
  · rintro ⟨p, hmem, hstrag⟩
    have hall : registry.all (fun q => q.2.finished) = false := by
      rw [List.all_eq_false]
      exact ⟨p, hmem, by rw [hstrag]; simp [WorkerOutcome.finished]⟩
    unfold run_all_scrapers_parallel _run_scrapers_parallel
    rw [hall]
    rfl
  · intro h
    have hall : registry.all (fun q => q.2.finished) = true := by
      rw [List.all_eq_true]
      intro q hq
      cases hqb : q.2 with
      | completes r => rfl
      | straggles => exact absurd hqb (h q hq)
    have hlen := completedResults_length registry
      (by rw [List.all_eq_true] at hall; exact fun p hp => hall p hp)
    refine ⟨mkAggregate registry.length (completedResults registry), ?_, hlen⟩
    unfold run_all_scrapers_parallel _run_scrapers_parallel
    rw [hall]
    rfl

/-- Witness for the amended C9 at the two concrete registries. -/
theorem claim_C9_timeout_raises_witness :
    run_all_scrapers_parallel regStraggler = Except.error timeoutErrorMsg ∧
    ∃ agg, run_all_scrapers_parallel regAllDone = Except.ok agg ∧
      agg.scraper_results.length = regAllDone.length :=
  ⟨(claim_C9_timeout_raises regStraggler).1
      ⟨("b", WorkerOutcome.straggles), by simp [regStraggler], rfl⟩,
   (claim_C9_timeout_raises regAllDone).2 (by
      intro p hp
      rcases List.mem_cons.mp hp with rfl | hp2
      · exact fun hc => WorkerOutcome.noConfusion hc
      · rcases List.mem_cons.mp hp2 with rfl | hp3
        · exact fun hc => WorkerOutcome.noConfusion hc
        · cases hp3)⟩

/-- C10: when the freshness lookup for an item raises, `_is_content_new`
reports the item new and the run persists it and succeeds, even though the
store already holds the identical hash — a dedup-check error re-persists an
unchanged item. -/
theorem claim_C10_freshness_error_assumes_new
    (c : ScrapedContent) (db : DB) (name : String) (lct : Option Nat) (t : Nat)
    (hstored : storedHash db name c.id = some c.content_hash) :
    _is_content_new (freshFailEnv c) db name c.id c.content_hash = true ∧
    (run_scraping (freshFailEnv c) name lct t false db).1.success = true ∧
    (run_scraping (freshFailEnv c) name lct t false db).1.new_content_count
      = some 1 := by
  have hff : (freshFailEnv c).freshness_check_fails c.id = true :=
    beq_self_eq_true c.id
  have hnew : _is_content_new (freshFailEnv c) db name c.id c.content_hash
      = true := by
    unfold _is_content_new
    rw [hff]
    rfl
  refine ⟨hnew, rfl, ?_⟩
  show some (processContents (freshFailEnv c) name false db [c]).1.length
    = some 1
  have hone : processContents (freshFailEnv c) name false db [c] =
      ([(save_scraped_data db name c.url c.title c.content
          (dictMerge [("content_hash", c.content_hash),
            ("published_date", toString c.published_date)] c.metadata)
          c.id).1],
       (save_scraped_data db name c.url c.title c.content
          (dictMerge [("content_hash", c.content_hash),
            ("published_date", toString c.published_date)] c.metadata)
          c.id).2) := by
    simp only [processContents]
    rw [Bool.false_or, hnew, if_pos rfl, _save_content_of_ok _ db name c rfl]
  rw [hone]
  rfl

/-- Witness for C10: the store already holds `cW` unchanged, yet the run with
a raising freshness lookup re-persists it. -/
theorem claim_C10_freshness_error_assumes_new_witness :
    _is_content_new (freshFailEnv cW) dbWithCW "s" cW.id cW.content_hash
      = true ∧
    (run_scraping (freshFailEnv cW) "s" none 4 false
      dbWithCW).1.new_content_count = some 1 :=
  ⟨(claim_C10_freshness_error_assumes_new cW dbWithCW "s" none 4
      (by decide)).1,
   (claim_C10_freshness_error_assumes_new cW dbWithCW "s" none 4
      (by decide)).2.2⟩

end FedSignal
